import Mathlib

/-!
Verification of the derivatives-analyzer scripts.

The repository is four Python scripts (`vol_signals.py`, `iv_surface.py`,
`options_greeks.py`, `perpetual_analysis.py`) that fetch an options-chain
table, filter it with boolean masks, aggregate implied volatility by
arithmetic mean, and print classification labels derived from fixed
thresholds.  We embed the tables as lists of records over `ℚ` (the scripts
use binary floats; the claims are about exact threshold arithmetic, which
`ℚ` captures), missing values (pandas `NaN`) as `Option ℚ`, and each
script's early-return / uncaught-exception behaviour as an explicit
`Outcome` type.
-/

/-- One row of an options-chain table (a Quote Row of the data model).
`iv`, `delta`, `theta` are `Option ℚ` because pandas columns may hold `NaN`;
`none` models a null entry. -/
structure Quote where
  strike : ℚ := 0
  dte : ℤ := 0
  optionType : String := "call"
  iv : Option ℚ := none
  delta : Option ℚ := none
  bid : ℚ := 0
  ask : ℚ := 0
  deriving Repr, DecidableEq

/-- Arithmetic mean of a list of rationals; `[]` gives `0` (ℚ division by
zero).  Models `pandas.Series.mean` on the non-null entries (pandas skips
`NaN` by default; callers pass the `filterMap`-ed non-null values). -/
def pandasMean (xs : List ℚ) : ℚ := xs.sum / xs.length

/-- `series.mean() * 100` over the `implied_volatility` column of `rows`,
skipping null entries, as every script computes it. -/
def ivMean100 (rows : List Quote) : ℚ :=
  pandasMean (rows.filterMap Quote.iv) * 100

/-- The `x.mean() * 100 if not x.empty else 0` idiom of
`vol_signals.analyze_vol_signals` and `iv_surface.analyze_iv_surface`:
an empty filtered group yields the sentinel `0`. -/
def ivMean100OrZero (rows : List Quote) : ℚ :=
  if rows.isEmpty then 0 else ivMean100 rows

/-- ATM band filter: `strike >= price * 0.98 and strike <= price * 1.02`
(vol_signals.py lines 60-61 and 195-196, iv_surface.py lines 52-53). -/
def atmBand (price : ℚ) (rows : List Quote) : List Quote :=
  rows.filter (fun r => price * (98/100) ≤ r.strike ∧ r.strike ≤ price * (102/100))

/-- OTM-call wing: `strike >= price * 1.03 and strike <= price * 1.08`
(vol_signals.py lines 92-93 and 114-115). -/
def otmCallBand (price : ℚ) (rows : List Quote) : List Quote :=
  rows.filter (fun r => price * (103/100) ≤ r.strike ∧ r.strike ≤ price * (108/100))

/-- OTM-put wing: `strike >= price * 0.92 and strike <= price * 0.97`
(vol_signals.py lines 94-95 and 116-117). -/
def otmPutBand (price : ℚ) (rows : List Quote) : List Quote :=
  rows.filter (fun r => price * (92/100) ≤ r.strike ∧ r.strike ≤ price * (97/100))

/-- Skew classification (vol_signals.py line 124):
`"BEARISH" if skew > 2 else "BULLISH" if skew < -2 else "NEUTRAL"`. -/
def skewDirection (skew : ℚ) : String :=
  if skew > 2 then "BEARISH" else if skew < -2 then "BULLISH" else "NEUTRAL"

/-- Skew analysis for one expiration (vol_signals.py lines 109-125): the
wing means (sentinel 0 when a wing is empty), and the `(skew, direction)`
pair printed only when both wing IVs are positive. -/
def skewSignal (price : ℚ) (calls puts : List Quote) : Option (ℚ × String) :=
  let call_iv := ivMean100OrZero (otmCallBand price calls)
  let put_iv := ivMean100OrZero (otmPutBand price puts)
  if call_iv > 0 ∧ put_iv > 0 then
    some (put_iv - call_iv, skewDirection (put_iv - call_iv))
  else none

/-- Fly analysis for one expiration (vol_signals.py lines 81-102): ATM mean
from the calls, wing means, output `(call+put)/2 - atm` only when all three
are positive. -/
def flySignal (price : ℚ) (calls puts : List Quote) : Option ℚ :=
  let atm_iv := ivMean100OrZero (atmBand price calls)
  let call_25d_iv := ivMean100OrZero (otmCallBand price calls)
  let put_25d_iv := ivMean100OrZero (otmPutBand price puts)
  if atm_iv > 0 ∧ call_25d_iv > 0 ∧ put_25d_iv > 0 then
    some ((call_25d_iv + put_25d_iv) / 2 - atm_iv)
  else none

/-- VRP value and label (vol_signals.py lines 219-227): `vrp = iv - rv`;
`HIGH VRP` if `vrp > 5`, `NEGATIVE VRP` if `vrp < -5`, else `NEUTRAL VRP`. -/
def vrpSignal (iv rv : ℚ) : ℚ × String :=
  let vrp := iv - rv
  (vrp, if vrp > 5 then "HIGH VRP"
        else if vrp < -5 then "NEGATIVE VRP"
        else "NEUTRAL VRP")

/-- Term structure (vol_signals.py lines 67-72): needs at least two collected
ATM IVs; `spread = far - near` with `near` the first and `far` the last entry,
label `CONTANGO` when `spread > 0`, else `BACKWARDATION`. -/
def termStructure : List ℚ → Option (ℚ × String)
  | [] => none
  | [_] => none
  | near :: rest =>
      let far := rest.getLastD near
      let spread := far - near
      some (spread, if spread > 0 then "CONTANGO" else "BACKWARDATION")

/-- The `ts_data` construction (vol_signals.py lines 57-65): for each of the
first six expirations, the ATM-band mean IV when the band is nonempty. -/
def tsData (price : ℚ) (valid : List Quote) (expirations : List ℤ) : List ℚ :=
  (expirations.take 6).filterMap (fun dte =>
    let atm := atmBand price (valid.filter (fun r => r.dte = dte))
    if atm.isEmpty then none else some (ivMean100 atm))

/-- ATM straddle leg distance `abs(exp_data['strike'] - price)`
(vol_signals.py lines 136-139). -/
def strikeDist (price : ℚ) (r : Quote) : ℚ := |r.strike - price|

/-- `abs(exp_data['strike'] - price).min()`: the smallest strike distance over
the whole expiration slice (calls and puts together). -/
def minStrikeDist (price : ℚ) (rows : List Quote) : Option ℚ :=
  (rows.map (strikeDist price)).min?

/-- The `.iloc[0]` of the rows of one option type at minimal strike distance
(vol_signals.py lines 136-143). -/
def atmLeg (ty : String) (price : ℚ) (rows : List Quote) : Option Quote :=
  (rows.filter (fun r =>
    r.optionType = ty ∧ some (strikeDist price r) = minStrikeDist price rows)).head?

/-- ATM straddle analysis for one expiration (vol_signals.py lines 132-152):
when both legs exist, `(straddle_cost, pct_move, daily breakeven move)` with
`mid = (bid+ask)/2`, `cost = call_mid + put_mid`, `pct_move = cost/price*100`,
daily breakeven `pct_move/dte`. -/
def straddleAnalysis (price : ℚ) (dte : ℤ) (expData : List Quote) : Option (ℚ × ℚ × ℚ) :=
  match atmLeg "call" price expData, atmLeg "put" price expData with
  | some c, some p =>
      let call_mid := (c.bid + c.ask) / 2
      let put_mid := (p.bid + p.ask) / 2
      let straddle_cost := call_mid + put_mid
      let pct_move := straddle_cost / price * 100
      some (straddle_cost, pct_move, pct_move / (dte : ℚ))
  | _, _ => none

/-- pandas `Series.tail(n)`: the trailing `n` entries. -/
def tailN (n : ℕ) (xs : List ℚ) : List ℚ := xs.drop (xs.length - n)

/-- pandas `Series.std()` squared: the sample variance with `ddof = 1`,
`Σ (x - mean)² / (n - 1)`. -/
def sampleVariance (xs : List ℚ) : ℚ :=
  let m := pandasMean xs
  (xs.map (fun x => (x - m) ^ 2)).sum / ((xs.length : ℚ) - 1)

/-- The square of the realized volatility of `calculate_vrp` (vol_signals.py
lines 214-215): `rv_30d = returns.std() * (252 ** 0.5) * 100` applied to the
trailing `lookback_days` returns.  `√` is irrational, so the embedding carries
`rv_30d²`; the annualization theorem recovers `rv_30d` through `Real.sqrt`. -/
def annualizedRVSq (returns : List ℚ) (lookback_days : ℕ) : ℚ :=
  sampleVariance (tailN lookback_days returns) * 252 * 100 ^ 2

/-- How a script run ends at a given point: keep going (`ok`), print a message
and return early (`earlyReturn`), or raise an uncaught exception that kills
the process (`crash`). -/
inductive Outcome where
  | ok : Outcome
  | earlyReturn : String → Outcome
  | crash : String → Outcome
  deriving Repr, DecidableEq

/-- Process exit code of an outcome: an uncaught exception exits nonzero,
everything else falls through to a normal exit 0. -/
def exitCode : Outcome → ℕ
  | Outcome.crash _ => 1
  | _ => 0

/-- The underlying-price column choice of options_greeks.py lines 25-28 and
vol_signals.py lines 29-32:
`price_col = 'underlying_price' if 'underlying_price' in chains.columns else 'spot_price'`,
then `None` when `price_col` is absent too (the scripts print and return). -/
def resolvePriceCol (columns : List String) : Option String :=
  let price_col := if "underlying_price" ∈ columns then "underlying_price" else "spot_price"
  if price_col ∈ columns then some price_col else none

/-- The outcome of the price-column step in options_greeks.py lines 25-29 (and
identically vol_signals.py lines 29-33). -/
def greeksPriceStep (columns : List String) : Outcome :=
  match resolvePriceCol columns with
  | some _ => Outcome.ok
  | none => Outcome.earlyReturn "Cannot determine underlying price from data"

/-- The price access of iv_surface.py line 22:
`price = chains['underlying_price'].iloc[0]` — a direct indexing with no
fallback and no surrounding `try`, so a missing column raises `KeyError`. -/
def ivSurfacePriceStep (columns : List String) : Outcome :=
  if "underlying_price" ∈ columns then Outcome.ok
  else Outcome.crash "KeyError: underlying_price"

/-- pandas `series != c` on an `Option ℚ` entry: a null (`NaN`) compares
unequal to every scalar, so the mask is `true` on nulls. -/
def pandasNe (x : Option ℚ) (c : ℚ) : Bool :=
  match x with
  | none => true
  | some v => decide (v ≠ c)

/-- The Greeks validity filter of options_greeks.py lines 33-39:
`(dte >= min_dte) & (dte <= max_dte) & (delta != 0) & (delta != 1) & (delta != -1)`
with pandas `!=` semantics. -/
def greeksValidFilter (min_dte max_dte : ℤ) (rows : List Quote) : List Quote :=
  rows.filter (fun r =>
    min_dte ≤ r.dte ∧ r.dte ≤ max_dte ∧
    pandasNe r.delta 0 = true ∧ pandasNe r.delta 1 = true ∧ pandasNe r.delta (-1) = true)

/-- The filter as the spec words it (for comparison with the code's filter):
in-range dte and a delta that is non-null and not exactly 0, 1 or -1. -/
def specGreeksFilter (min_dte max_dte : ℤ) (rows : List Quote) : List Quote :=
  rows.filter (fun r =>
    decide (min_dte ≤ r.dte) && decide (r.dte ≤ max_dte) &&
    match r.delta with
    | none => false
    | some d => decide (d ≠ 0) && decide (d ≠ 1) && decide (d ≠ -1))

/-- A fetched table, abstracted to what the control flow inspects: its column
names and its row count. -/
structure Table where
  columns : List String
  nrows : ℕ
  deriving Repr, DecidableEq

/-- Result of one external fetch call: the `except` branch, or a table. -/
inductive FetchResult where
  | fetchError : String → FetchResult
  | fetched : Table → FetchResult
  deriving Repr, DecidableEq

/-- The guarded entry of `analyze_vol_signals` (vol_signals.py lines 17-26):
fetch errors are caught and printed, an empty table prints and returns, and
otherwise the analysis proceeds. -/
def analyzeVolSignalsEntry (fetch : FetchResult) : Outcome :=
  match fetch with
  | FetchResult.fetchError e => Outcome.earlyReturn ("Error fetching data: " ++ e)
  | FetchResult.fetched t =>
      if t.nrows = 0 then Outcome.earlyReturn "No options data available"
      else Outcome.ok

/-- `list_instruments` (perpetual_analysis.py lines 52-66): the fetch error is
caught, but the fetched table is then used with no emptiness or column check:
`instruments[instruments['symbol'].str.contains('PERPETUAL', na=False)]` and
`perps[['symbol', 'last_price', 'open_interest']]` raise `KeyError` when a
needed column is absent. -/
def listInstruments (fetch : FetchResult) : Outcome :=
  match fetch with
  | FetchResult.fetchError e => Outcome.earlyReturn ("Error fetching instruments: " ++ e)
  | FetchResult.fetched t =>
      if "symbol" ∈ t.columns then
        if "last_price" ∈ t.columns ∧ "open_interest" ∈ t.columns then Outcome.ok
        else Outcome.crash "KeyError: column selection"
      else Outcome.crash "KeyError: symbol"

/-- `month_options` of calculate_vrp (vol_signals.py line 194):
`chains[(chains['dte'] >= 25) & (chains['dte'] <= 35)]`. -/
def vrpMonthOptions (chains : List Quote) : List Quote :=
  chains.filter (fun r => 25 ≤ r.dte ∧ r.dte ≤ 35)

/-- `atm` of calculate_vrp (vol_signals.py lines 195-196): the month bucket
further restricted to `strike` in `[price * 0.98, price * 1.02]`. -/
def vrpAtmRows (price : ℚ) (chains : List Quote) : List Quote :=
  (vrpMonthOptions chains).filter (fun r =>
    price * (98/100) ≤ r.strike ∧ r.strike ≤ price * (102/100))

/-- The 30-day IV step of calculate_vrp (vol_signals.py lines 198-202): an
empty ATM set prints and returns before RV or VRP is computed (`none`);
otherwise `iv_30d = atm['implied_volatility'].mean() * 100`. -/
def vrpIv30d (price : ℚ) (chains : List Quote) : Option ℚ :=
  let atm := vrpAtmRows price chains
  if atm.isEmpty then none
  else some (ivMean100 atm)

/-- Sample call wing row used to exercise the skew signal (strike 105 is in
the 103-108 band of spot 100; IV 0.20 means 20%). -/
def skewSampleCalls : List Quote := [{ strike := 105, iv := some (1/5) }]

/-- Sample put wing row used to exercise the skew signal (strike 95 is in
the 92-97 band of spot 100; IV 0.25 means 25%). -/
def skewSamplePuts : List Quote := [{ strike := 95, iv := some (1/4) }]

/-- Sample ATM call quote with mid price (4+6)/2 = 5. -/
def straddleCallRow : Quote := { optionType := "call", strike := 100, bid := 4, ask := 6 }

/-- Sample ATM put quote with mid price (3+5)/2 = 4. -/
def straddlePutRow : Quote := { optionType := "put", strike := 100, bid := 3, ask := 5 }

/-- Sample expiration slice holding the two straddle legs. -/
def straddleSample : List Quote := [straddleCallRow, straddlePutRow]

/-- Sample chain row inside both the 25-35 dte bucket and the 98%-102%
strike band of spot 100. -/
def vrpSample : List Quote := [{ dte := 30, strike := 100, iv := some (1/4) }]

/-- Characterization of `skewDirection`: each label holds exactly on its
threshold region, with strict inequalities at ±2. -/
theorem skewDirection_spec (x : ℚ) :
    (skewDirection x = "BEARISH" ↔ 2 < x) ∧
    (skewDirection x = "BULLISH" ↔ x < -2) ∧
    (skewDirection x = "NEUTRAL" ↔ -2 ≤ x ∧ x ≤ 2) := by
  unfold skewDirection
  split_ifs with h1 h2
  · refine ⟨⟨fun _ => h1, fun _ => rfl⟩, ⟨fun hs => ?_, fun hx => ?_⟩,
      ⟨fun hs => ?_, fun hx => ?_⟩⟩
    · exact absurd hs (by decide)
    · linarith
    · exact absurd hs (by decide)
    · linarith [hx.2]
  · refine ⟨⟨fun hs => ?_, fun hx => ?_⟩, ⟨fun _ => h2, fun _ => rfl⟩,
      ⟨fun hs => ?_, fun hx => ?_⟩⟩
    · exact absurd hs (by decide)
    · linarith
    · exact absurd hs (by decide)
    · linarith [hx.1]
  · push_neg at h1 h2
    refine ⟨⟨fun hs => ?_, fun hx => ?_⟩, ⟨fun hs => ?_, fun hx => ?_⟩,
      ⟨fun _ => ⟨h2, h1⟩, fun _ => rfl⟩⟩
    · exact absurd hs (by decide)
    · linarith
    · exact absurd hs (by decide)
    · linarith

/-- C1: whenever the skew analysis prints a pair (both wing means positive),
the skew is the 92-97% put-wing mean IV minus the 103-108% call-wing mean IV,
and the label is BEARISH exactly when skew > 2, BULLISH exactly when
skew < -2, NEUTRAL exactly on [-2, 2]; in particular a skew of exactly 2 is
NEUTRAL and 2.01 is BEARISH. -/
theorem skew_classification_threshold_exact :
    (∀ (price : ℚ) (calls puts : List Quote) (s : ℚ) (d : String),
        skewSignal price calls puts = some (s, d) →
        0 < ivMean100OrZero (otmCallBand price calls) ∧
        0 < ivMean100OrZero (otmPutBand price puts) ∧
        s = ivMean100OrZero (otmPutBand price puts) -
            ivMean100OrZero (otmCallBand price calls) ∧
        (d = "BEARISH" ↔ 2 < s) ∧ (d = "BULLISH" ↔ s < -2) ∧
        (d = "NEUTRAL" ↔ -2 ≤ s ∧ s ≤ 2)) ∧
    skewDirection 2 = "NEUTRAL" ∧ skewDirection (201/100) = "BEARISH" := by
  refine ⟨?_, by norm_num [skewDirection], by norm_num [skewDirection]⟩
  intro price calls puts s d h
  unfold skewSignal at h
  dsimp only at h
  split_ifs at h with hpos
  simp only [Option.some.injEq, Prod.mk.injEq] at h
  obtain ⟨hs, hd⟩ := h
  subst hs
  subst hd
  exact ⟨hpos.1, hpos.2, rfl, skewDirection_spec _⟩

/-- C1 witness: a concrete pair of wing quotes (call wing 20%, put wing 25%)
produces skew 5 labeled BEARISH, discharging the hypothesis of the theorem. -/
theorem skew_classification_threshold_exact_witness :
    skewSignal 100 skewSampleCalls skewSamplePuts = some (5, "BEARISH") ∧
    (0 < ivMean100OrZero (otmCallBand 100 skewSampleCalls) ∧
     0 < ivMean100OrZero (otmPutBand 100 skewSamplePuts) ∧
     (5:ℚ) = ivMean100OrZero (otmPutBand 100 skewSamplePuts) -
         ivMean100OrZero (otmCallBand 100 skewSampleCalls) ∧
     ("BEARISH" = "BEARISH" ↔ (2:ℚ) < 5) ∧
     ("BEARISH" = "BULLISH" ↔ (5:ℚ) < -2) ∧
     ("BEARISH" = "NEUTRAL" ↔ (-2:ℚ) ≤ 5 ∧ (5:ℚ) ≤ 2)) :=
  have h : skewSignal 100 skewSampleCalls skewSamplePuts = some (5, "BEARISH") := by
    norm_num [skewSignal, skewDirection, ivMean100OrZero, ivMean100, pandasMean,
      otmCallBand, otmPutBand, skewSampleCalls, skewSamplePuts, List.filterMap,
      List.filter]
  ⟨h, skew_classification_threshold_exact.1 100 _ _ 5 "BEARISH" h⟩

/-- C2: the VRP computation returns `iv - rv` with the label HIGH VRP exactly
when vrp > 5, NEGATIVE VRP exactly when vrp < -5, NEUTRAL VRP exactly on
[-5, 5]; the three specified input pairs give +7 HIGH, -6 NEGATIVE, +2
NEUTRAL. -/
theorem vrp_classification_thresholds :
    (∀ iv rv : ℚ, ∃ lbl,
        vrpSignal iv rv = (iv - rv, lbl) ∧
        (lbl = "HIGH VRP" ↔ 5 < iv - rv) ∧
        (lbl = "NEGATIVE VRP" ↔ iv - rv < -5) ∧
        (lbl = "NEUTRAL VRP" ↔ -5 ≤ iv - rv ∧ iv - rv ≤ 5)) ∧
    vrpSignal 25 18 = (7, "HIGH VRP") ∧
    vrpSignal 20 26 = (-6, "NEGATIVE VRP") ∧
    vrpSignal 22 20 = (2, "NEUTRAL VRP") := by
  refine ⟨?_, by norm_num [vrpSignal], by norm_num [vrpSignal], by norm_num [vrpSignal]⟩
  intro iv rv
  unfold vrpSignal
  dsimp only
  split_ifs with h1 h2
  · exact ⟨"HIGH VRP", rfl, ⟨fun _ => h1, fun _ => rfl⟩,
      ⟨fun hs => absurd hs (by decide), fun hx => by linarith⟩,
      ⟨fun hs => absurd hs (by decide), fun hx => by linarith [hx.2]⟩⟩
  · exact ⟨"NEGATIVE VRP", rfl,
      ⟨fun hs => absurd hs (by decide), fun hx => by linarith⟩,
      ⟨fun _ => h2, fun _ => rfl⟩,
      ⟨fun hs => absurd hs (by decide), fun hx => by linarith [hx.1]⟩⟩
  · push_neg at h1 h2
    exact ⟨"NEUTRAL VRP", rfl,
      ⟨fun hs => absurd hs (by decide), fun hx => by linarith⟩,
      ⟨fun hs => absurd hs (by decide), fun hx => by linarith⟩,
      ⟨fun _ => ⟨h2, h1⟩, fun _ => rfl⟩⟩

/-- C3: for any collected list of at least two ATM IVs (near first, far
last, as `ts_data` collects them in expiration order) the term-structure
spread is far minus near and the label is CONTANGO exactly when the spread
is strictly positive, BACKWARDATION otherwise; near 30 far 35 gives
(+5, CONTANGO) and the reverse gives (-5, BACKWARDATION). -/
theorem term_structure_spread_contango :
    (∀ (near : ℚ) (rest : List ℚ), rest ≠ [] →
        ∃ s lbl, termStructure (near :: rest) = some (s, lbl) ∧
          s = rest.getLastD near - near ∧
          (lbl = "CONTANGO" ↔ 0 < s) ∧
          (lbl = "BACKWARDATION" ↔ s ≤ 0)) ∧
    termStructure [30, 35] = some (5, "CONTANGO") ∧
    termStructure [35, 30] = some (-5, "BACKWARDATION") := by
  refine ⟨?_, by norm_num [termStructure], by norm_num [termStructure]⟩
  rintro near (_ | ⟨b, t⟩) hr
  · exact absurd rfl hr
  · refine ⟨(b :: t).getLastD near - near, ?_⟩
    by_cases h : (b :: t).getLastD near - near > 0
    · exact ⟨"CONTANGO", by simp only [termStructure]; rw [if_pos h], rfl,
        ⟨fun _ => h, fun _ => rfl⟩,
        ⟨fun hs => absurd hs (by decide), fun hx => by linarith⟩⟩
    · push_neg at h
      exact ⟨"BACKWARDATION", by simp only [termStructure]; rw [if_neg (by linarith)], rfl,
        ⟨fun hs => absurd hs (by decide), fun hx => by linarith⟩,
        ⟨fun _ => h, fun _ => rfl⟩⟩

/-- C3 witness: the near 30 / far 35 pair instantiates the general statement. -/
theorem term_structure_spread_contango_witness :
    (([35] : List ℚ) ≠ []) ∧
    ∃ s lbl, termStructure (30 :: [35]) = some (s, lbl) ∧
      s = ([35] : List ℚ).getLastD 30 - 30 ∧
      (lbl = "CONTANGO" ↔ 0 < s) ∧
      (lbl = "BACKWARDATION" ↔ s ≤ 0) :=
  ⟨by simp, term_structure_spread_contango.1 30 [35] (by simp)⟩

/-- C4: an empty filtered group (ATM band, OTM call wing, or OTM put wing)
yields the sentinel 0 from the grouped mean-IV aggregate, and the downstream
signals that require a positive value (skew, fly) produce no output; the
embedding is total, so no input raises an exception. -/
theorem empty_group_sentinel_no_signal :
    (∀ rows : List Quote, rows = [] → ivMean100OrZero rows = 0) ∧
    (∀ (price : ℚ) (calls puts : List Quote), otmCallBand price calls = [] →
        skewSignal price calls puts = none) ∧
    (∀ (price : ℚ) (calls puts : List Quote), otmPutBand price puts = [] →
        skewSignal price calls puts = none) ∧
    (∀ (price : ℚ) (calls puts : List Quote), atmBand price calls = [] →
        flySignal price calls puts = none) ∧
    (∀ (price : ℚ) (calls puts : List Quote), otmCallBand price calls = [] →
        flySignal price calls puts = none) ∧
    (∀ (price : ℚ) (calls puts : List Quote), otmPutBand price puts = [] →
        flySignal price calls puts = none) := by
  have hz : ∀ rows : List Quote, rows = [] → ivMean100OrZero rows = 0 := by
    intro rows h
    subst h
    rfl
  refine ⟨hz, ?_, ?_, ?_, ?_, ?_⟩ <;> intro price calls puts h <;>
    simp [skewSignal, flySignal, hz _ h]

/-- C4 witness: with no call rows at all the OTM call wing is empty, so the
skew analysis prints nothing for that expiration. -/
theorem empty_group_sentinel_no_signal_witness :
    otmCallBand 100 [] = [] ∧ skewSignal 100 [] skewSamplePuts = none :=
  ⟨rfl, empty_group_sentinel_no_signal.2.1 100 [] skewSamplePuts rfl⟩

/-- C5: whenever both ATM legs exist, the straddle analysis returns
`(cost, pct_move, daily breakeven)` with `mid = (bid+ask)/2` per leg,
`cost` the sum of the mids, `pct_move = cost/spot*100` and daily breakeven
`pct_move/dte`; call mid 5, put mid 4, spot 100, dte 30 give
(9, 9%, 0.3%). -/
theorem straddle_cost_breakeven :
    (∀ (price : ℚ) (dte : ℤ) (expData : List Quote) (c p : Quote),
        atmLeg "call" price expData = some c →
        atmLeg "put" price expData = some p →
        straddleAnalysis price dte expData =
          some ((c.bid + c.ask) / 2 + (p.bid + p.ask) / 2,
            ((c.bid + c.ask) / 2 + (p.bid + p.ask) / 2) / price * 100,
            ((c.bid + c.ask) / 2 + (p.bid + p.ask) / 2) / price * 100 / (dte : ℚ))) ∧
    straddleAnalysis 100 30 straddleSample = some (9, 9, 3/10) := by
  constructor
  · intro price dte expData c p hc hp
    unfold straddleAnalysis
    rw [hc, hp]
  · simp +decide only [straddleAnalysis, atmLeg, minStrikeDist, strikeDist, List.min?,
      List.filter, List.map, List.head?, straddleSample, straddleCallRow, straddlePutRow]
    norm_num

/-- C5 witness: the sample legs instantiate the general statement, with cost
(4+6)/2 + (3+5)/2 = 9. -/
theorem straddle_cost_breakeven_witness :
    atmLeg "call" 100 straddleSample = some straddleCallRow ∧
    atmLeg "put" 100 straddleSample = some straddlePutRow ∧
    straddleAnalysis 100 30 straddleSample =
      some ((straddleCallRow.bid + straddleCallRow.ask) / 2 +
              (straddlePutRow.bid + straddlePutRow.ask) / 2,
        ((straddleCallRow.bid + straddleCallRow.ask) / 2 +
              (straddlePutRow.bid + straddlePutRow.ask) / 2) / 100 * 100,
        ((straddleCallRow.bid + straddleCallRow.ask) / 2 +
              (straddlePutRow.bid + straddlePutRow.ask) / 2) / 100 * 100 / ((30 : ℤ) : ℚ)) := by
  have hc : atmLeg "call" 100 straddleSample = some straddleCallRow := by
    simp +decide only [atmLeg, minStrikeDist, strikeDist, List.min?, List.filter,
      List.map, List.head?, straddleSample, straddleCallRow, straddlePutRow]
    norm_num
  have hp : atmLeg "put" 100 straddleSample = some straddlePutRow := by
    simp +decide only [atmLeg, minStrikeDist, strikeDist, List.min?, List.filter,
      List.map, List.head?, straddleSample, straddleCallRow, straddlePutRow]
    norm_num
  exact ⟨hc, hp, straddle_cost_breakeven.1 100 30 straddleSample _ _ hc hp⟩

/-- The sample variance is nonnegative: zero for fewer than two entries, a
quotient of nonnegatives otherwise. -/
theorem sampleVariance_nonneg (xs : List ℚ) : 0 ≤ sampleVariance xs := by
  rcases xs with _ | ⟨x, _ | ⟨y, t⟩⟩
  · norm_num [sampleVariance, pandasMean]
  · norm_num [sampleVariance, pandasMean]
  · unfold sampleVariance
    apply div_nonneg
    · apply List.sum_nonneg
      intro a ha
      obtain ⟨b, _, rfl⟩ := List.mem_map.mp ha
      positivity
    · have hlen : (x :: y :: t).length = t.length + 2 := by simp
      rw [hlen]
      push_cast
      have := Nat.cast_nonneg (α := ℚ) t.length
      linarith

/-- C6: for a return series with at least `lookback_days` values, the
annualized realized volatility of `calculate_vrp` (carried as its square
`annualizedRVSq`, since √ is irrational) equals the sample standard deviation
of the trailing `lookback_days` returns times √252 times 100; the trailing
window really is a suffix of length `lookback_days`. -/
theorem realized_vol_annualized :
    ∀ (returns : List ℚ) (lookback_days : ℕ), lookback_days ≤ returns.length →
      Real.sqrt ((annualizedRVSq returns lookback_days : ℚ) : ℝ) =
        Real.sqrt ((sampleVariance (tailN lookback_days returns) : ℚ) : ℝ) *
          Real.sqrt 252 * 100 ∧
      (tailN lookback_days returns).length = lookback_days ∧
      ∃ pre, returns = pre ++ tailN lookback_days returns := by
  intro returns n hn
  refine ⟨?_, ?_, ⟨returns.take (returns.length - n), (List.take_append_drop _ _).symm⟩⟩
  · unfold annualizedRVSq
    have hv : (0:ℝ) ≤ ((sampleVariance (tailN n returns) : ℚ) : ℝ) := by
      exact_mod_cast sampleVariance_nonneg _
    push_cast
    rw [Real.sqrt_mul (by positivity), Real.sqrt_mul hv, Real.sqrt_sq (by norm_num)]
  · unfold tailN
    rw [List.length_drop]
    omega

/-- C6 witness: a three-value return series with lookback 2 instantiates the
annualization identity. -/
theorem realized_vol_annualized_witness :
    2 ≤ ([1/10, 1/5, 3/10] : List ℚ).length ∧
    (Real.sqrt ((annualizedRVSq [1/10, 1/5, 3/10] 2 : ℚ) : ℝ) =
        Real.sqrt ((sampleVariance (tailN 2 [1/10, 1/5, 3/10]) : ℚ) : ℝ) *
          Real.sqrt 252 * 100 ∧
      (tailN 2 ([1/10, 1/5, 3/10] : List ℚ)).length = 2 ∧
      ∃ pre, ([1/10, 1/5, 3/10] : List ℚ) = pre ++ tailN 2 [1/10, 1/5, 3/10]) :=
  ⟨by norm_num, realized_vol_annualized [1/10, 1/5, 3/10] 2 (by norm_num)⟩

/-- C7 counterexample: iv_surface.py line 22 has no column fallback — on a
table that carries `spot_price` but not `underlying_price` the direct
indexing raises an uncaught `KeyError` instead of resolving to `spot_price`
or returning early, so the claim's "every script" fails. -/
theorem ivsurface_price_keyerror_cex :
    ivSurfacePriceStep ["spot_price", "strike", "dte"] =
      Outcome.crash "KeyError: underlying_price" := by
  simp +decide [ivSurfacePriceStep]

/-- C7 (amended): in options_greeks and vol_signals the resolver picks
`underlying_price` first, then `spot_price` (a `spot_price`-only table
resolves without error), and with neither present those scripts print and
return early; iv_surface instead indexes `underlying_price` directly and
crashes with `KeyError` whenever it is absent. -/
theorem column_resolution_amended :
    (∀ columns : List String, "underlying_price" ∈ columns →
        resolvePriceCol columns = some "underlying_price") ∧
    (∀ columns : List String, "underlying_price" ∉ columns → "spot_price" ∈ columns →
        resolvePriceCol columns = some "spot_price") ∧
    (∀ columns : List String, "underlying_price" ∉ columns → "spot_price" ∉ columns →
        resolvePriceCol columns = none ∧
        greeksPriceStep columns =
          Outcome.earlyReturn "Cannot determine underlying price from data") ∧
    (∀ columns : List String, "underlying_price" ∉ columns →
        ivSurfacePriceStep columns = Outcome.crash "KeyError: underlying_price") := by
  refine ⟨?_, ?_, ?_, ?_⟩
  · intro cols h
    simp [resolvePriceCol, h]
  · intro cols h1 h2
    simp [resolvePriceCol, h1, h2]
  · intro cols h1 h2
    have hr : resolvePriceCol cols = none := by simp [resolvePriceCol, h1, h2]
    exact ⟨hr, by simp [greeksPriceStep, hr]⟩
  · intro cols h
    simp [ivSurfacePriceStep, h]

/-- C7 witness: the `spot_price`-only table resolves to `spot_price` in the
scripts that have the resolver. -/
theorem column_resolution_amended_witness :
    "underlying_price" ∉ (["spot_price"] : List String) ∧
    "spot_price" ∈ (["spot_price"] : List String) ∧
    resolvePriceCol ["spot_price"] = some "spot_price" :=
  ⟨by decide, by decide,
    column_resolution_amended.2.1 ["spot_price"] (by decide) (by decide)⟩

/-- `pandasNe x c` is `true` exactly when every non-null value of `x` differs
from `c`; in particular it is `true` on nulls. -/
theorem pandasNe_true_iff (x : Option ℚ) (c : ℚ) :
    pandasNe x c = true ↔ ∀ d, x = some d → d ≠ c := by
  cases x <;> simp [pandasNe]

/-- C8 counterexample: an in-range row with a null delta is kept by the
code's filter (pandas `NaN != 0` is `True`), while the claim's filter — which
excludes null deltas — drops it. -/
theorem greeks_filter_null_delta_cex :
    greeksValidFilter 7 60 [{ dte := 30, delta := none }] =
      [{ dte := 30, delta := none }] ∧
    specGreeksFilter 7 60 [{ dte := 30, delta := none }] = [] := by
  constructor <;> simp +decide [greeksValidFilter, specGreeksFilter, pandasNe, List.filter]

/-- C8 (amended): the Greeks validity filter keeps exactly the rows with
`min_dte ≤ dte ≤ max_dte` (inclusive) whose delta is not exactly 0, 1 or -1
under pandas `!=` semantics: non-null deltas of exactly 0, 1, -1 are
excluded, but null deltas compare unequal to every scalar and the row is
kept. -/
theorem greeks_filter_pandas_semantics :
    ∀ (min_dte max_dte : ℤ) (rows : List Quote) (r : Quote),
      r ∈ greeksValidFilter min_dte max_dte rows ↔
        r ∈ rows ∧ min_dte ≤ r.dte ∧ r.dte ≤ max_dte ∧
          ∀ d : ℚ, r.delta = some d → d ≠ 0 ∧ d ≠ 1 ∧ d ≠ -1 := by
  intro a b rows r
  simp only [greeksValidFilter, List.mem_filter, decide_eq_true_eq, pandasNe_true_iff]
  constructor
  · rintro ⟨hm, h1, h2, h3, h4, h5⟩
    exact ⟨hm, h1, h2, fun d hd => ⟨h3 d hd, h4 d hd, h5 d hd⟩⟩
  · rintro ⟨hm, h1, h2, hd⟩
    exact ⟨hm, h1, h2, fun d h => (hd d h).1, fun d h => (hd d h).2.1,
      fun d h => (hd d h).2.2⟩

/-- C8 witness: an informative in-range quote (delta 0.5) is kept by the
filter. -/
theorem greeks_filter_pandas_semantics_witness :
    ({ dte := 30, delta := some (1/2) } : Quote) ∈
      greeksValidFilter 7 60 [{ dte := 30, delta := some (1/2) }] :=
  (greeks_filter_pandas_semantics 7 60 _ _).mpr
    ⟨by simp, by norm_num, by norm_num, fun d hd => by
      injection hd with h
      subst h
      norm_num⟩

/-- C9 counterexample: in the instrument-listing path the fetched table is
used with no column check, so a successfully fetched table without a
`symbol` column raises an uncaught `KeyError` — the process exits nonzero,
refuting "no error is ever fatal / exit code 0 in all paths". -/
theorem list_instruments_crash_cex :
    listInstruments (FetchResult.fetched
        { columns := ["instrument_name", "last_price"], nrows := 5 }) =
      Outcome.crash "KeyError: symbol" ∧
    exitCode (listInstruments (FetchResult.fetched
        { columns := ["instrument_name", "last_price"], nrows := 5 })) = 1 := by
  constructor <;> simp +decide [listInstruments, exitCode]

/-- C9 (amended): fetch failures are caught with a printed message and an
early return in every script, and the analysis entry checks empty data; but
the instrument-listing path performs no emptiness/column check after its
fetch, so a fetched table lacking the `symbol` column crashes with exit code
1, while the guarded paths exit 0. -/
theorem fetch_error_handling_amended :
    (∀ e : String, listInstruments (FetchResult.fetchError e) =
        Outcome.earlyReturn ("Error fetching instruments: " ++ e) ∧
        exitCode (listInstruments (FetchResult.fetchError e)) = 0) ∧
    (∀ e : String, analyzeVolSignalsEntry (FetchResult.fetchError e) =
        Outcome.earlyReturn ("Error fetching data: " ++ e)) ∧
    (∀ t : Table, t.nrows = 0 →
        analyzeVolSignalsEntry (FetchResult.fetched t) =
          Outcome.earlyReturn "No options data available") ∧
    (∀ t : Table, "symbol" ∈ t.columns → "last_price" ∈ t.columns →
        "open_interest" ∈ t.columns →
        listInstruments (FetchResult.fetched t) = Outcome.ok ∧
        exitCode (listInstruments (FetchResult.fetched t)) = 0) ∧
    (∀ t : Table, "symbol" ∉ t.columns →
        exitCode (listInstruments (FetchResult.fetched t)) = 1) := by
  refine ⟨?_, ?_, ?_, ?_, ?_⟩
  · intro e
    exact ⟨rfl, rfl⟩
  · intro e
    rfl
  · intro t h
    simp [analyzeVolSignalsEntry, h]
  · intro t h1 h2 h3
    have hok : listInstruments (FetchResult.fetched t) = Outcome.ok := by
      simp [listInstruments, h1, h2, h3]
    exact ⟨hok, by rw [hok]; rfl⟩
  · intro t h
    simp [listInstruments, exitCode, h]

/-- C9 witness: a fetched table without a `symbol` column exits nonzero. -/
theorem fetch_error_handling_amended_witness :
    "symbol" ∉ (["instrument_name"] : List String) ∧
    exitCode (listInstruments (FetchResult.fetched
        { columns := ["instrument_name"], nrows := 0 })) = 1 :=
  ⟨by decide, fetch_error_handling_amended.2.2.2.2
    { columns := ["instrument_name"], nrows := 0 } (by decide)⟩

/-- C10: `calculate_vrp`'s 30-day ATM set is exactly the rows with dte in the
inclusive range [25, 35] and strike in the inclusive band
[0.98·spot, 1.02·spot]; when it is empty the function returns before any RV
or VRP is computed, otherwise the 30-day IV is the mean implied volatility
of those rows times 100. -/
theorem vrp_iv30_band_and_early_return :
    ∀ (price : ℚ) (chains : List Quote),
      vrpAtmRows price chains = chains.filter (fun r =>
        25 ≤ r.dte ∧ r.dte ≤ 35 ∧
        price * (98/100) ≤ r.strike ∧ r.strike ≤ price * (102/100)) ∧
      (vrpAtmRows price chains = [] → vrpIv30d price chains = none) ∧
      (vrpAtmRows price chains ≠ [] →
        vrpIv30d price chains =
          some (pandasMean ((vrpAtmRows price chains).filterMap Quote.iv) * 100)) := by
  intro price chains
  refine ⟨?_, ?_, ?_⟩
  · unfold vrpAtmRows vrpMonthOptions
    rw [List.filter_filter]
    congr 1
    funext r
    simp [Bool.and_comm, Bool.and_assoc, Bool.and_left_comm]
  · intro h
    simp [vrpIv30d, h]
  · intro h
    unfold vrpIv30d
    dsimp only
    rw [if_neg (by simpa [List.isEmpty_iff] using h)]
    rfl

/-- C10 witness: a chain with one row at dte 30, strike = spot, IV 0.25 has a
nonempty ATM set and yields a 30-day IV. -/
theorem vrp_iv30_band_and_early_return_witness :
    vrpAtmRows 100 vrpSample ≠ [] ∧
    vrpIv30d 100 vrpSample =
      some (pandasMean ((vrpAtmRows 100 vrpSample).filterMap Quote.iv) * 100) := by
  have h : vrpAtmRows 100 vrpSample ≠ [] := by
    have : vrpAtmRows 100 vrpSample = vrpSample := by
      norm_num [vrpAtmRows, vrpMonthOptions, vrpSample, List.filter]
    rw [this]
    simp [vrpSample]
  exact ⟨h, (vrp_iv30_band_and_early_return 100 vrpSample).2.2 h⟩
